import Mathlib

/-!
Verification of the request-relay background script of the edms-ai-assistant
browser extension (src/edms-ai-plugin/background.ts).  The relay receives
typed messages, forwards them as HTTP calls to a fixed backend origin, keeps
an in-flight registry of request identifiers mapped to abort controllers, and
answers each caller with a uniform response envelope.
-/

namespace EdmsRelay

mutual
/-- JSON-like values, the shallow embedding of the untyped payload objects
passed through the relay.  Object fields are kept as an ordered field list. -/
inductive JVal where
  | null : JVal
  | boolV : Bool → JVal
  | num : Int → JVal
  | str : String → JVal
  | obj : JFields → JVal

inductive JFields where
  | fnil : JFields
  | fcons : String → JVal → JFields → JFields
end

deriving instance DecidableEq for JVal
deriving instance Repr for JVal

/-- Field lookup in an object's field list. -/
def JFields.get : JFields → String → Option JVal
  | .fnil, _ => none
  | .fcons k' v rest, k => if k' = k then some v else rest.get k

/-- The embedding of JS property access `o.k`: `none` plays the role of
`undefined` (missing field, or access on a non-object value). -/
def JVal.get : JVal → String → Option JVal
  | .obj fs, k => fs.get k
  | _, _ => none

/-- JS truthiness of a value: `null`, `false`, `0` and the empty string are
falsy, everything else (objects included) is truthy. -/
def JVal.truthy : JVal → Bool
  | .null => false
  | .boolV b => b
  | .num n => n != 0
  | .str s => s != ""
  | .obj _ => true

/-- The embedding of `a || b` where `a` is a possibly-undefined value:
`undefined` and falsy values fall through to the default. -/
def jsOr : Option JVal → JVal → JVal
  | some v, d => if v.truthy then v else d
  | none, d => d

/-- JS string coercion `String(v)`, as used by template literals and by the
`Error` constructor on a non-string argument. -/
def JVal.toJsString : JVal → String
  | .null => "null"
  | .boolV true => "true"
  | .boolV false => "false"
  | .num n => toString n
  | .str s => s
  | .obj _ => "[object Object]"

/-- Template-literal interpolation of a possibly-undefined value. -/
def jsTemplate : Option JVal → String
  | some v => v.toJsString
  | none => "undefined"

/-- `payload.requestId || 'default'`: the expression computing the in-flight
key, written at background.ts line 14 (behind optional chaining) and again at
line 84.  We model messages whose payload is a present JSON value, so the
optional chaining reduces to plain field access. -/
def requestIdOf (payload : JVal) : JVal :=
  jsOr (payload.get "requestId") (.str "default")

/-- Opaque identity of an `AbortController`. -/
abbrev Ctrl := Nat

/-- The in-flight registry `activeRequests : Map<string, AbortController>`
(background.ts line 11), embedded as an association list.  Keys in a JS `Map`
are unique, so the list operations below keep at most one entry per key. -/
abbrev Reg := List (JVal × Ctrl)

/-- `activeRequests.get k`. -/
def getKey (k : JVal) : Reg → Option Ctrl
  | [] => none
  | (k', c) :: rest => if k = k' then some c else getKey k rest

/-- `activeRequests.set k c`: overwrite the entry with key `k`, or append. -/
def setKey (k : JVal) (c : Ctrl) : Reg → Reg
  | [] => [(k, c)]
  | (k', c') :: rest => if k = k' then (k, c) :: rest else (k', c') :: setKey k c rest

/-- `activeRequests.delete k`.  Keys are unique in a JS `Map`, so removing
every matching entry agrees with removing the single one. -/
def delKey (k : JVal) : Reg → Reg
  | [] => []
  | (k', c') :: rest => if k = k' then delKey k rest else (k', c') :: delKey k rest

/-- One entry of a `FormData` body: either a blob appended under a key with an
explicit filename argument, or a plain field with its appended value. -/
inductive FormEntry where
  | fileEntry : String → Nat → Option JVal → FormEntry
  | fieldEntry : String → Option JVal → FormEntry
deriving DecidableEq, Repr

/-- An HTTP request body: a JSON payload (serialized by `JSON.stringify`) or
a multipart form. -/
inductive Body where
  | jsonOf : JVal → Body
  | formOf : List FormEntry → Body
deriving DecidableEq, Repr

/-- An HTTP request as issued by the relay. -/
structure HttpRequest where
  url : String
  method : String
  contentType : Option String
  body : Option Body
deriving DecidableEq, Repr

/-- The uniform response envelope `ChromeResponse` (background.ts lines 4-8):
`success`, optional `data`, optional `error`. -/
structure ChromeResponse where
  success : Bool
  data : Option JVal := none
  error : Option String := none
deriving DecidableEq, Repr

/-- Environment behaviour of one backend HTTP exchange: either the network
fails with an error message, or a response arrives carrying a status code and
the result of parsing its body as JSON (`Except.error` is `response.json()`
rejecting, with the rejection's message). -/
inductive HttpOutcome where
  | netError : String → HttpOutcome
  | reply : Nat → Except String JVal → HttpOutcome

/-- Outcome of a fetch guarded by an abort signal: the exchange can further
be cancelled through the registered controller, which surfaces as an
`AbortError`. -/
inductive FetchOutcome where
  | aborted : FetchOutcome
  | completed : HttpOutcome → FetchOutcome

/-- `response.ok`: status in the 2xx range. -/
def statusOk (status : Nat) : Bool := 200 ≤ status && status < 300

/-- `new Error(data.detail || generic).message`: a truthy `detail` value is
coerced to a string, anything else falls back to the generic message. -/
def detailOr (data : JVal) (generic : String) : String :=
  (jsOr (data.get "detail") (.str generic)).toJsString

/-- The shared JSON exchange pattern of the three fetch handlers:
`const data = await response.json(); if (!response.ok) throw new
Error(data.detail || generic); sendResponse(success)` with the enclosing
`catch` turning any thrown error into a failure envelope. -/
def jsonExchange (outcome : HttpOutcome) (generic : Nat → String) : ChromeResponse :=
  match outcome with
  | .netError msg => { success := false, error := some msg }
  | .reply _ (.error msg) => { success := false, error := some msg }
  | .reply status (.ok data) =>
      if statusOk status then { success := true, data := some data }
      else { success := false, error := some (detailOr data (generic status)) }

/-- `const API_BASE_URL = 'http://localhost:8000'` (background.ts line 10). -/
def API_BASE_URL : String := "http://localhost:8000"

/-- Result of one `performFetch` run: the in-flight key it used, the registry
while the fetch is pending (after `activeRequests.set`), the HTTP request it
issued, the single response it sent, and the registry after the `finally`
block ran `activeRequests.delete`. -/
structure FetchResult where
  rid : JVal
  regDuring : Reg
  request : HttpRequest
  response : ChromeResponse
  regAfter : Reg
deriving Repr

/-- background.ts lines 83-110: register an `AbortController` under
`payload.requestId || 'default'`, POST the JSON-serialized payload, answer
with the uniform envelope ('Request aborted' on an `AbortError`), and delete
the registry entry in `finally` on every path. -/
def performFetch (endpoint : String) (payload : JVal) (ctrl : Ctrl)
    (outcome : FetchOutcome) (reg : Reg) : FetchResult :=
  let requestId := requestIdOf payload
  let regDuring := setKey requestId ctrl reg
  let request : HttpRequest :=
    { url := endpoint
      method := "POST"
      contentType := some "application/json"
      body := some (.jsonOf payload) }
  let response : ChromeResponse :=
    match outcome with
    | .aborted => { success := false, error := some "Request aborted" }
    | .completed o => jsonExchange o (fun status => "Ошибка сервера: " ++ toString status)
  { rid := requestId, regDuring, request, response, regAfter := delKey requestId regDuring }

/-- background.ts lines 54-57. -/
def handleChatMessage (payload : JVal) (ctrl : Ctrl) (outcome : FetchOutcome)
    (reg : Reg) : FetchResult :=
  performFetch (API_BASE_URL ++ "/chat") payload ctrl outcome reg

/-- background.ts lines 59-62. -/
def handleDirectAction (payload : JVal) (path : String) (ctrl : Ctrl)
    (outcome : FetchOutcome) (reg : Reg) : FetchResult :=
  performFetch (API_BASE_URL ++ path) payload ctrl outcome reg

/-- Object literal whose fields are those of the list that are actually
defined: a field holding `undefined` is dropped, matching what
`JSON.stringify` does to the serialized body (and field access on the object
yields `undefined` either way). -/
def JFields.ofOpts : List (String × Option JVal) → JFields
  | [] => .fnil
  | (k, some v) :: rest => .fcons k v (ofOpts rest)
  | (_, none) :: rest => ofOpts rest

/-- Object built from possibly-undefined fields. -/
def objOf (kvs : List (String × Option JVal)) : JVal := .obj (JFields.ofOpts kvs)

/-- The rewritten payload `{user_token: payload.user_token}` of
`handleCreateNewChat` (background.ts line 66). -/
def simplifiedPayloadOf (payload : JVal) : JVal :=
  objOf [("user_token", payload.get "user_token")]

/-- background.ts lines 64-68. -/
def handleCreateNewChat (payload : JVal) (ctrl : Ctrl) (outcome : FetchOutcome)
    (reg : Reg) : FetchResult :=
  performFetch (API_BASE_URL ++ "/chat/new") (simplifiedPayloadOf payload) ctrl outcome reg

/-- The rebuilt payload of `handleAutofillAppeal` (background.ts lines 73-78):
`message` and `file_path` are defaulted with `||`, `user_token` and
`context_ui_id` are copied through. -/
def requestPayloadOf (payload : JVal) : JVal :=
  objOf
    [ ("message", some (jsOr (payload.get "message") (.str "Заполни обращение")))
    , ("user_token", payload.get "user_token")
    , ("context_ui_id", payload.get "context_ui_id")
    , ("file_path", some (jsOr (payload.get "file_path") .null)) ]

/-- background.ts lines 70-81. -/
def handleAutofillAppeal (payload : JVal) (ctrl : Ctrl) (outcome : FetchOutcome)
    (reg : Reg) : FetchResult :=
  performFetch (API_BASE_URL ++ "/appeal/autofill") (requestPayloadOf payload) ctrl outcome reg

/-- Result of the upload handler: the multipart request it issued (none when
the blob fetch already failed) and the single response it sent. -/
structure UploadResult where
  request : Option HttpRequest
  response : ChromeResponse
deriving Repr

/-- background.ts lines 112-133: fetch the data URL in `fileData` into a blob
(its outcome is a failure message or an opaque blob identity), build a
`FormData` with exactly the file entry (filename from `fileName`) and the
`user_token` field, POST it to `/upload-file` with no explicit headers, and
answer with the uniform envelope.  No abort controller is installed and the
in-flight registry is never touched. -/
def handleFileUpload (payload : JVal) (blobResult : Except String Nat)
    (outcome : HttpOutcome) : UploadResult :=
  match blobResult with
  | .error msg => { request := none, response := { success := false, error := some msg } }
  | .ok blob =>
      let formData : List FormEntry :=
        [ .fileEntry "file" blob (payload.get "fileName")
        , .fieldEntry "user_token" (payload.get "user_token") ]
      let request : HttpRequest :=
        { url := API_BASE_URL ++ "/upload-file"
          method := "POST"
          contentType := none
          body := some (.formOf formData) }
      { request := some request
        response := jsonExchange outcome (fun _ => "Ошибка сохранения файла") }

/-- Result of the history handler: the request it issued and its response. -/
structure HistoryResult where
  request : HttpRequest
  response : ChromeResponse
deriving Repr

/-- background.ts lines 135-145: a bare `fetch(url)` with no init object, so
the request goes out with the default GET method, no headers and no body; the
thread identifier is interpolated into the path by a template literal. -/
def handleGetHistory (payload : JVal) (outcome : HttpOutcome) : HistoryResult :=
  let thread_id := payload.get "thread_id"
  { request :=
      { url := API_BASE_URL ++ "/chat/history/" ++ jsTemplate thread_id
        method := "GET"
        contentType := none
        body := none }
    response := jsonExchange outcome (fun _ => "Ошибка истории") }

/-- A message delivered to the listener: its `type` tag and its payload. -/
structure Message where
  type : String
  payload : JVal
deriving Repr

/-- Environment inputs a single dispatch may consume: the fresh controller
and fetch outcome for the JSON handlers, the blob-fetch result and upload
outcome for the upload handler, and the history fetch outcome. -/
structure Env where
  ctrl : Ctrl
  outcome : FetchOutcome
  blobResult : Except String Nat
  uploadOutcome : HttpOutcome
  historyOutcome : HttpOutcome

/-- Observable effect of dispatching one message: backend requests issued,
responses sent via `sendResponse`, the registry afterwards, and the
controllers on which `.abort()` was invoked. -/
structure ListenerResult where
  requests : List HttpRequest
  responses : List ChromeResponse
  reg : Reg
  signalled : List Ctrl
deriving Repr

/-- Lift a `FetchResult` to the listener's observable effect. -/
def ofFetchResult (r : FetchResult) : ListenerResult :=
  { requests := [r.request], responses := [r.response], reg := r.regAfter, signalled := [] }

/-- background.ts lines 13-52, the `chrome.runtime.onMessage` listener:
dispatch on `message.type`.  `abortRequest` signals and deletes a matching
in-flight controller and returns `false` (no response); unknown types fall
through to `return false`. -/
def handleMessage (msg : Message) (reg : Reg) (env : Env) : ListenerResult :=
  let requestId := requestIdOf msg.payload
  match msg.type with
  | "abortRequest" =>
      match getKey requestId reg with
      | some controller =>
          { requests := [], responses := [], reg := delKey requestId reg
            signalled := [controller] }
      | none => { requests := [], responses := [], reg, signalled := [] }
  | "sendChatMessage" =>
      ofFetchResult (handleChatMessage msg.payload env.ctrl env.outcome reg)
  | "summarizeDocument" =>
      ofFetchResult (handleDirectAction msg.payload "/actions/summarize" env.ctrl env.outcome reg)
  | "uploadFile" =>
      let r := handleFileUpload msg.payload env.blobResult env.uploadOutcome
      { requests := r.request.toList, responses := [r.response], reg, signalled := [] }
  | "getChatHistory" =>
      let r := handleGetHistory msg.payload env.historyOutcome
      { requests := [r.request], responses := [r.response], reg, signalled := [] }
  | "createNewChat" =>
      ofFetchResult (handleCreateNewChat msg.payload env.ctrl env.outcome reg)
  | "autofillAppeal" =>
      ofFetchResult (handleAutofillAppeal msg.payload env.ctrl env.outcome reg)
  | _ => { requests := [], responses := [], reg, signalled := [] }

/-- One scheduler-visible event on the shared registry: a fetch starting
(`activeRequests.set`, line 86), a fetch's `finally` block running
(`activeRequests.delete`, line 108), or an abort message being handled
(lines 17-23). -/
inductive Ev where
  | start : JVal → Ctrl → Ev
  | finish : JVal → Ev
  | abortEv : JVal → Ev

/-- The shared state interleaved operations act on: the registry and the
list of controllers signalled so far. -/
structure SysState where
  reg : Reg
  signalled : List Ctrl
deriving Repr, DecidableEq

/-- Effect of one event on the shared state. -/
def stepEv (s : SysState) : Ev → SysState
  | .start rid c => { s with reg := setKey rid c s.reg }
  | .finish rid => { s with reg := delKey rid s.reg }
  | .abortEv rid =>
      match getKey rid s.reg with
      | some c => { reg := delKey rid s.reg, signalled := c :: s.signalled }
      | none => s

/-- Run a whole interleaving of events. -/
def runEvs (s : SysState) (evs : List Ev) : SysState := evs.foldl stepEv s

/-- The needle matches at the head of the haystack. -/
def leadMatch : List Char → List Char → Bool
  | [], _ => true
  | _ :: _, [] => false
  | a :: as, b :: bs => a == b && leadMatch as bs

/-- The needle occurs contiguously somewhere in the haystack. -/
def hasSubL (n : List Char) : List Char → Bool
  | [] => leadMatch n []
  | c :: t => leadMatch n (c :: t) || hasSubL n t

/-- One string occurs as a contiguous substring of another; used to state
"the message contains the status code". -/
def strHasSub (n hay : String) : Bool := hasSubL n.data hay.data

/-- The envelope contract: a success carries data and no error, a failure
carries an error message and no data. -/
def envelopeOk (r : ChromeResponse) : Prop :=
  (r.success = true → r.data.isSome = true ∧ r.error = none) ∧
  (r.success = false → r.error.isSome = true ∧ r.data = none)

/-! ### Registry lemmas -/

theorem getKey_setKey (k k' : JVal) (c : Ctrl) (m : Reg) :
    getKey k (setKey k' c m) = if k = k' then some c else getKey k m := by
  induction m with
  | nil => simp [setKey, getKey]
  | cons hd tl ih =>
      obtain ⟨a, b⟩ := hd
      by_cases h1 : k' = a
      · subst h1
        by_cases h2 : k = k' <;> simp [setKey, getKey, h2]
      · by_cases h2 : k = a <;> by_cases h3 : k = k'
        · exact absurd (h3.symm.trans h2) h1
        · simp [setKey, getKey, h1, Ne.symm h1, h2, h3, ih]
        · subst h3
          simp [setKey, getKey, h1, h2, ih]
        · simp [setKey, getKey, h1, h2, h3, ih]

theorem getKey_delKey (k k' : JVal) (m : Reg) :
    getKey k (delKey k' m) = if k = k' then none else getKey k m := by
  induction m with
  | nil => simp [delKey, getKey]
  | cons hd tl ih =>
      obtain ⟨a, b⟩ := hd
      by_cases h1 : k' = a
      · subst h1
        by_cases h2 : k = k'
        · subst h2
          simp [delKey, getKey, ih]
        · simp [delKey, getKey, h2, ih]
      · by_cases h2 : k = a <;> by_cases h3 : k = k'
        · exact absurd (h3.symm.trans h2) h1
        · simp [delKey, getKey, h1, Ne.symm h1, h2, h3, ih]
        · subst h3
          simp [delKey, getKey, h1, h2, ih]
        · simp [delKey, getKey, h1, h2, h3, ih]

/-- A key absent from a registry stays absent across a set-then-delete cycle
under any (possibly different) key, the net registry effect of one
`performFetch`. -/
theorem getKey_afterCycle (k k' : JVal) (c : Ctrl) (m : Reg)
    (h : getKey k m = none) :
    getKey k (delKey k' (setKey k' c m)) = none := by
  rw [getKey_delKey, getKey_setKey]
  split_ifs <;> simp_all

/-! ### String containment lemmas -/

theorem leadMatch_append (n t : List Char) : leadMatch n (n ++ t) = true := by
  induction n with
  | nil => simp [leadMatch]
  | cons a as ih => simp [leadMatch, ih]

theorem hasSubL_append (n x : List Char) : hasSubL n (x ++ n) = true := by
  induction x with
  | nil =>
      cases n with
      | nil => simp [hasSubL, leadMatch]
      | cons c t =>
          have h := leadMatch_append (c :: t) []
          rw [List.append_nil] at h
          simp [hasSubL, h]
  | cons a xs ih => simp [hasSubL, ih]

theorem strHasSub_append (n x : String) : strHasSub n (x ++ n) = true := by
  have h : (x ++ n).data = x.data ++ n.data := rfl
  rw [strHasSub, h]
  exact hasSubL_append n.data x.data

/-! ### Object-construction lemmas -/

/-- A field name appearing nowhere in the field list is undefined on the
constructed object. -/
theorem get_objOf_of_notMem (kvs : List (String × Option JVal)) (k : String)
    (h : ∀ kv ∈ kvs, kv.1 ≠ k) : (objOf kvs).get k = none := by
  induction kvs with
  | nil => rfl
  | cons hd tl ih =>
      obtain ⟨a, v⟩ := hd
      have ha : a ≠ k := h (a, v) (by simp)
      have htl : ∀ kv ∈ tl, kv.1 ≠ k := fun kv hm => h kv (by simp [hm])
      cases v with
      | none => simpa [objOf, JFields.ofOpts, JVal.get] using ih htl
      | some w =>
          have := ih htl
          simp only [objOf, JVal.get] at this ⊢
          simpa [JFields.ofOpts, JFields.get, ha] using this

/-! ### Response-envelope discipline -/

theorem envelopeOk_jsonExchange (o : HttpOutcome) (g : Nat → String) :
    envelopeOk (jsonExchange o g) := by
  cases o with
  | netError m => simp [jsonExchange, envelopeOk]
  | reply status b =>
      cases b with
      | error m => simp [jsonExchange, envelopeOk]
      | ok d => by_cases h : statusOk status <;> simp [jsonExchange, envelopeOk, h]

theorem envelopeOk_performFetch (e : String) (p : JVal) (c : Ctrl) (o : FetchOutcome)
    (reg : Reg) : envelopeOk (performFetch e p c o reg).response := by
  cases o with
  | aborted => exact ⟨fun h => by simp_all [performFetch], fun _ => by simp [performFetch]⟩
  | completed o => exact envelopeOk_jsonExchange o _

theorem envelopeOk_upload (p : JVal) (br : Except String Nat) (o : HttpOutcome) :
    envelopeOk (handleFileUpload p br o).response := by
  cases br with
  | error m => exact ⟨fun h => by simp_all [handleFileUpload], fun _ => by simp [handleFileUpload]⟩
  | ok blob => exact envelopeOk_jsonExchange o _

/-! ### Error-message lemmas -/

theorem jsonExchange_not_ok (status : Nat) (data : JVal) (g : Nat → String)
    (h : statusOk status = false) :
    jsonExchange (.reply status (.ok data)) g =
      { success := false, error := some (detailOr data (g status)) } := by
  simp [jsonExchange, h]

theorem detailOr_of_truthy (data : JVal) (g : String) (d : JVal)
    (h : data.get "detail" = some d) (ht : d.truthy = true) :
    detailOr data g = d.toJsString := by
  simp [detailOr, h, jsOr, ht]

theorem detailOr_of_falsy (data : JVal) (g : String) (d : JVal)
    (h : data.get "detail" = some d) (hf : d.truthy = false) :
    detailOr data g = g := by
  simp [detailOr, h, jsOr, hf, JVal.toJsString]

theorem detailOr_of_undef (data : JVal) (g : String) (h : data.get "detail" = none) :
    detailOr data g = g := by
  simp [detailOr, h, jsOr, JVal.toJsString]

/-! ### Dispatch lemmas: `handleMessage` reduced at each concrete type tag -/

theorem handleMessage_abort (q : JVal) (reg : Reg) (env : Env) :
    handleMessage ⟨"abortRequest", q⟩ reg env =
      (match getKey (requestIdOf q) reg with
       | some controller =>
           { requests := [], responses := [], reg := delKey (requestIdOf q) reg
             signalled := [controller] }
       | none => { requests := [], responses := [], reg, signalled := [] }) := rfl

theorem handleMessage_chat (p : JVal) (reg : Reg) (env : Env) :
    handleMessage ⟨"sendChatMessage", p⟩ reg env =
      ofFetchResult (handleChatMessage p env.ctrl env.outcome reg) := rfl

theorem handleMessage_summarize (p : JVal) (reg : Reg) (env : Env) :
    handleMessage ⟨"summarizeDocument", p⟩ reg env =
      ofFetchResult (handleDirectAction p "/actions/summarize" env.ctrl env.outcome reg) := rfl

theorem handleMessage_upload (p : JVal) (reg : Reg) (env : Env) :
    handleMessage ⟨"uploadFile", p⟩ reg env =
      { requests := (handleFileUpload p env.blobResult env.uploadOutcome).request.toList
        responses := [(handleFileUpload p env.blobResult env.uploadOutcome).response]
        reg, signalled := [] } := rfl

theorem handleMessage_history (p : JVal) (reg : Reg) (env : Env) :
    handleMessage ⟨"getChatHistory", p⟩ reg env =
      { requests := [(handleGetHistory p env.historyOutcome).request]
        responses := [(handleGetHistory p env.historyOutcome).response]
        reg, signalled := [] } := rfl

theorem handleMessage_create (p : JVal) (reg : Reg) (env : Env) :
    handleMessage ⟨"createNewChat", p⟩ reg env =
      ofFetchResult (handleCreateNewChat p env.ctrl env.outcome reg) := rfl

theorem handleMessage_autofill (p : JVal) (reg : Reg) (env : Env) :
    handleMessage ⟨"autofillAppeal", p⟩ reg env =
      ofFetchResult (handleAutofillAppeal p env.ctrl env.outcome reg) := rfl

/-! ### Bridging lemmas between `performFetch` / the abort branch and the
event-step model of the shared registry -/

theorem regDuring_eq_step (e : String) (p : JVal) (c : Ctrl) (o : FetchOutcome)
    (reg : Reg) (sig : List Ctrl) :
    (performFetch e p c o reg).regDuring =
      (stepEv ⟨reg, sig⟩ (.start (requestIdOf p) c)).reg := rfl

theorem regAfter_eq_step (e : String) (p : JVal) (c : Ctrl) (o : FetchOutcome)
    (reg : Reg) (sig : List Ctrl) :
    (performFetch e p c o reg).regAfter =
      (stepEv (stepEv ⟨reg, sig⟩ (.start (requestIdOf p) c))
        (.finish (requestIdOf p))).reg := rfl

theorem abort_eq_step (q : JVal) (reg : Reg) (env : Env) :
    (handleMessage ⟨"abortRequest", q⟩ reg env).reg =
      (stepEv ⟨reg, []⟩ (.abortEv (requestIdOf q))).reg ∧
    (handleMessage ⟨"abortRequest", q⟩ reg env).signalled =
      (stepEv ⟨reg, []⟩ (.abortEv (requestIdOf q))).signalled := by
  rw [handleMessage_abort]
  cases h : getKey (requestIdOf q) reg <;> simp [stepEv, h]

/-! ### Claim theorems -/

/-- C1: for a relay operation started with a request identifier, an
abortRequest message carrying that identifier while the operation is in
flight signals the registered controller, removes the identifier from the
in-flight registry and produces no response to its sender; the aborted
operation resolves as a failure tagged with the fixed string
'Request aborted'; an abort whose identifier has no registered handle is a
no-op. -/
theorem C1_abort_semantics (endpoint : String) (p q p2 : JVal) (c : Ctrl)
    (o : FetchOutcome) (reg reg2 : Reg) (env env2 : Env)
    (hq : requestIdOf q = requestIdOf p)
    (hmiss : getKey (requestIdOf p2) reg2 = none) :
    handleMessage ⟨"abortRequest", q⟩ (performFetch endpoint p c o reg).regDuring env =
      { requests := [], responses := []
        reg := delKey (requestIdOf p) (performFetch endpoint p c o reg).regDuring
        signalled := [c] } ∧
    getKey (requestIdOf p)
      (handleMessage ⟨"abortRequest", q⟩ (performFetch endpoint p c o reg).regDuring env).reg
      = none ∧
    (performFetch endpoint p c .aborted reg).response =
      { success := false, data := none, error := some "Request aborted" } ∧
    handleMessage ⟨"abortRequest", p2⟩ reg2 env2 =
      { requests := [], responses := [], reg := reg2, signalled := [] } := by
  have hget : getKey (requestIdOf q) (performFetch endpoint p c o reg).regDuring = some c := by
    show getKey (requestIdOf q) (setKey (requestIdOf p) c reg) = some c
    rw [hq, getKey_setKey, if_pos rfl]
  have h1 : handleMessage ⟨"abortRequest", q⟩ (performFetch endpoint p c o reg).regDuring env =
      { requests := [], responses := []
        reg := delKey (requestIdOf p) (performFetch endpoint p c o reg).regDuring
        signalled := [c] } := by
    rw [handleMessage_abort, hget, hq]
  refine ⟨h1, ?_, rfl, ?_⟩
  · rw [h1]
    show getKey (requestIdOf p)
      (delKey (requestIdOf p) (performFetch endpoint p c o reg).regDuring) = none
    rw [getKey_delKey, if_pos rfl]
  · rw [handleMessage_abort, hmiss]

/-- C1 witness: concrete instance with identifier "zz" in flight and the
empty registry for the no-op part. -/
theorem C1_abort_semantics_witness :
    (performFetch "http://localhost:8000/chat"
      (.obj (.fcons "requestId" (.str "zz") .fnil)) 0 .aborted []).response =
      { success := false, data := none, error := some "Request aborted" } :=
  (C1_abort_semantics "http://localhost:8000/chat"
    (.obj (.fcons "requestId" (.str "zz") .fnil))
    (.obj (.fcons "requestId" (.str "zz") .fnil))
    (.obj .fnil) 0 .aborted [] []
    ⟨0, .aborted, .ok 0, .netError "", .netError ""⟩
    ⟨0, .aborted, .ok 0, .netError "", .netError ""⟩
    rfl (by decide)).2.2.1

/-- C2: after any of the six answered operation kinds completes, the
in-flight registry does not contain that operation's identifier (assuming, as
the single-operation-per-identifier discipline guarantees, that no other
operation holds the identifier beforehand; the fetch-routed operations remove
it unconditionally via their `finally` block). -/
theorem C2_registry_clean (msg : Message) (reg : Reg) (env : Env)
    (hop : msg.type ∈ ["sendChatMessage", "summarizeDocument", "uploadFile",
      "getChatHistory", "createNewChat", "autofillAppeal"])
    (hmiss : getKey (requestIdOf msg.payload) reg = none) :
    getKey (requestIdOf msg.payload) (handleMessage msg reg env).reg = none := by
  obtain ⟨t, p⟩ := msg
  simp only [List.mem_cons, List.not_mem_nil, or_false] at hop
  rcases hop with rfl | rfl | rfl | rfl | rfl | rfl
  · rw [handleMessage_chat]
    exact getKey_afterCycle _ _ _ _ hmiss
  · rw [handleMessage_summarize]
    exact getKey_afterCycle _ _ _ _ hmiss
  · rw [handleMessage_upload]
    exact hmiss
  · rw [handleMessage_history]
    exact hmiss
  · rw [handleMessage_create]
    exact getKey_afterCycle _ _ _ _ hmiss
  · rw [handleMessage_autofill]
    exact getKey_afterCycle _ _ _ _ hmiss

/-- C2 witness: a chat operation under identifier "r1" starting from the
empty registry leaves the registry without "r1". -/
theorem C2_registry_clean_witness :
    getKey (requestIdOf (.obj (.fcons "requestId" (.str "r1") .fnil)))
      (handleMessage ⟨"sendChatMessage", .obj (.fcons "requestId" (.str "r1") .fnil)⟩ []
        ⟨0, .completed (.reply 200 (.ok .null)), .ok 0, .netError "", .netError ""⟩).reg
      = none :=
  C2_registry_clean ⟨"sendChatMessage", .obj (.fcons "requestId" (.str "r1") .fnil)⟩ []
    ⟨0, .completed (.reply 200 (.ok .null)), .ok 0, .netError "", .netError ""⟩
    (by decide) (by decide)

/-- C3 counterexample: an uploadFile operation answered with HTTP 500 and a
JSON body without a `detail` field is surfaced with the fixed message
"Ошибка сохранения файла", which does not contain the status code "500" —
refuting the claim that the generic message always contains the status
code. -/
theorem C3_counterexample :
    statusOk 500 = false ∧
    (JVal.obj .fnil).get "detail" = none ∧
    (handleFileUpload
        (.obj (.fcons "fileData" (.str "u") (.fcons "fileName" (.str "f.txt")
          (.fcons "user_token" (.str "t") .fnil))))
        (.ok 7) (.reply 500 (.ok (.obj .fnil)))).response =
      { success := false, data := none, error := some "Ошибка сохранения файла" } ∧
    strHasSub "500" "Ошибка сохранения файла" = false := by decide

/-- C3 (amended): on a non-2xx response whose body parsed, the failure's
error message follows `data.detail || generic`: a truthy `detail` value of
any type is string-coerced and used as the error message; a falsy or absent
`detail` falls back to the generic message, which for the fetch-routed
operations contains the HTTP status code while uploadFile and getChatHistory
use fixed messages that do not depend on the status. -/
theorem C3_amended (endpoint : String) (p q : JVal) (c : Ctrl) (blob : Nat)
    (status : Nat) (data : JVal) (reg : Reg)
    (hstatus : statusOk status = false) :
    (∀ d : JVal, data.get "detail" = some d → d.truthy = true →
      (performFetch endpoint p c (.completed (.reply status (.ok data))) reg).response.error
        = some d.toJsString ∧
      (handleFileUpload q (.ok blob) (.reply status (.ok data))).response.error
        = some d.toJsString ∧
      (handleGetHistory q (.reply status (.ok data))).response.error = some d.toJsString) ∧
    (∀ d : JVal, data.get "detail" = some d → d.truthy = false →
      (performFetch endpoint p c (.completed (.reply status (.ok data))) reg).response.error
        = some ("Ошибка сервера: " ++ toString status) ∧
      strHasSub (toString status) ("Ошибка сервера: " ++ toString status) = true ∧
      (handleFileUpload q (.ok blob) (.reply status (.ok data))).response.error
        = some "Ошибка сохранения файла" ∧
      (handleGetHistory q (.reply status (.ok data))).response.error = some "Ошибка истории") ∧
    (data.get "detail" = none →
      (performFetch endpoint p c (.completed (.reply status (.ok data))) reg).response.error
        = some ("Ошибка сервера: " ++ toString status) ∧
      strHasSub (toString status) ("Ошибка сервера: " ++ toString status) = true ∧
      (handleFileUpload q (.ok blob) (.reply status (.ok data))).response.error
        = some "Ошибка сохранения файла" ∧
      (handleGetHistory q (.reply status (.ok data))).response.error = some "Ошибка истории") ∧
    (performFetch endpoint p c (.completed (.reply status (.ok data))) reg).response.success
      = false ∧
    (handleFileUpload q (.ok blob) (.reply status (.ok data))).response.success = false ∧
    (handleGetHistory q (.reply status (.ok data))).response.success = false := by
  have hf : (performFetch endpoint p c (.completed (.reply status (.ok data))) reg).response
      = jsonExchange (.reply status (.ok data)) (fun st => "Ошибка сервера: " ++ toString st) :=
    rfl
  have hu : (handleFileUpload q (.ok blob) (.reply status (.ok data))).response
      = jsonExchange (.reply status (.ok data)) (fun _ => "Ошибка сохранения файла") := rfl
  have hh : (handleGetHistory q (.reply status (.ok data))).response
      = jsonExchange (.reply status (.ok data)) (fun _ => "Ошибка истории") := rfl
  have hjf := jsonExchange_not_ok status data
    (fun st => "Ошибка сервера: " ++ toString st) hstatus
  have hju := jsonExchange_not_ok status data (fun _ => "Ошибка сохранения файла") hstatus
  have hjh := jsonExchange_not_ok status data (fun _ => "Ошибка истории") hstatus
  refine ⟨?_, ?_, ?_, ?_, ?_, ?_⟩
  · intro d hd ht
    rw [hf, hu, hh, hjf, hju, hjh]
    simp [detailOr_of_truthy data _ d hd ht]
  · intro d hd hfls
    rw [hf, hu, hh, hjf, hju, hjh]
    refine ⟨?_, strHasSub_append (toString status) "Ошибка сервера: ", ?_, ?_⟩ <;>
      simp [detailOr_of_falsy data _ d hd hfls]
  · intro hnone
    rw [hf, hu, hh, hjf, hju, hjh]
    refine ⟨?_, strHasSub_append (toString status) "Ошибка сервера: ", ?_, ?_⟩ <;>
      simp [detailOr_of_undef data _ hnone]
  · rw [hf, hjf]
  · rw [hu, hju]
  · rw [hh, hjh]

/-- C3 amended witness: HTTP 500 with the truthy non-string `detail` 5
surfaces the coerced message "5" from the fetch-routed path. -/
theorem C3_amended_witness :
    (performFetch "http://localhost:8000/chat" (.obj .fnil) 0
      (.completed (.reply 500 (.ok (.obj (.fcons "detail" (.num 5) .fnil))))) []).response.error
      = some "5" :=
  ((C3_amended "http://localhost:8000/chat" (.obj .fnil) (.obj .fnil) 0 0 500
    (.obj (.fcons "detail" (.num 5) .fnil)) [] (by decide)).1
    (.num 5) (by decide) (by decide)).1

/-- C4 counterexample: a createNewChat payload carrying a user token and a
requestId is not forwarded verbatim — the issued body keeps only the
`user_token` field, so the relay does rewrite payload fields. -/
theorem C4_counterexample :
    (handleMessage ⟨"createNewChat",
        .obj (.fcons "user_token" (.str "t") (.fcons "requestId" (.str "r1") .fnil))⟩ []
      ⟨0, .completed (.reply 200 (.ok .null)), .ok 0, .netError "", .netError ""⟩).requests.map
        HttpRequest.body
      = [some (.jsonOf (.obj (.fcons "user_token" (.str "t") .fnil)))] ∧
    (JVal.obj (.fcons "user_token" (.str "t") .fnil))
      ≠ .obj (.fcons "user_token" (.str "t") (.fcons "requestId" (.str "r1") .fnil)) := by
  decide

/-- C4 (amended): sendChatMessage and summarizeDocument payloads are passed
through verbatim as the HTTP request body; createNewChat forwards only the
`user_token` field and autofillAppeal forwards a rebuilt four-field object
with defaults, and neither rewritten body retains a caller-supplied
requestId. -/
theorem C4_amended (p : JVal) (c : Ctrl) (o : FetchOutcome) (reg : Reg) :
    (handleChatMessage p c o reg).request.body = some (.jsonOf p) ∧
    (handleDirectAction p "/actions/summarize" c o reg).request.body = some (.jsonOf p) ∧
    (handleCreateNewChat p c o reg).request.body
      = some (.jsonOf (simplifiedPayloadOf p)) ∧
    (simplifiedPayloadOf p).get "requestId" = none ∧
    (simplifiedPayloadOf p).get "user_token" = p.get "user_token" ∧
    (handleAutofillAppeal p c o reg).request.body
      = some (.jsonOf (requestPayloadOf p)) ∧
    (requestPayloadOf p).get "requestId" = none := by
  refine ⟨rfl, rfl, rfl, ?_, ?_, rfl, ?_⟩
  · exact get_objOf_of_notMem _ _
      (by intro kv hm; rcases List.mem_singleton.mp hm with rfl; simp)
  · cases h : p.get "user_token" with
    | none =>
        simp only [simplifiedPayloadOf]
        rw [h]
        simp [objOf, JFields.ofOpts, JVal.get, JFields.get]
    | some v =>
        simp only [simplifiedPayloadOf]
        rw [h]
        simp [objOf, JFields.ofOpts, JVal.get, JFields.get]
  · exact get_objOf_of_notMem _ _
      (by intro kv hm; simp at hm; rcases hm with rfl | rfl | rfl | rfl <;> simp)

/-- C5 counterexample: the getChatHistory operation issues a GET with no
content type and no body, refuting the claim that every JSON-endpoint
operation — the history retrieval included — uses POST with a JSON body. -/
theorem C5_counterexample :
    (handleGetHistory (.obj (.fcons "thread_id" (.str "t1") .fnil))
      (.reply 200 (.ok .null))).request =
      { url := "http://localhost:8000/chat/history/t1", method := "GET"
        contentType := none, body := none } ∧
    "GET" ≠ "POST" := by decide

/-- C5 (amended): the four fetch-routed JSON operations issue POST with
Content-Type application/json and the (possibly rewritten) payload as the
body; getChatHistory instead issues a GET to /chat/history/{thread
identifier} with no headers and no body. -/
theorem C5_amended (p : JVal) (c : Ctrl) (o : FetchOutcome) (ho : HttpOutcome) (reg : Reg) :
    (handleChatMessage p c o reg).request.method = "POST" ∧
    (handleChatMessage p c o reg).request.contentType = some "application/json" ∧
    (handleChatMessage p c o reg).request.body = some (.jsonOf p) ∧
    (handleDirectAction p "/actions/summarize" c o reg).request.method = "POST" ∧
    (handleDirectAction p "/actions/summarize" c o reg).request.contentType
      = some "application/json" ∧
    (handleCreateNewChat p c o reg).request.method = "POST" ∧
    (handleCreateNewChat p c o reg).request.contentType = some "application/json" ∧
    (handleAutofillAppeal p c o reg).request.method = "POST" ∧
    (handleAutofillAppeal p c o reg).request.contentType = some "application/json" ∧
    (handleGetHistory p ho).request.method = "GET" ∧
    (handleGetHistory p ho).request.contentType = none ∧
    (handleGetHistory p ho).request.body = none ∧
    (handleGetHistory p ho).request.url
      = API_BASE_URL ++ "/chat/history/" ++ jsTemplate (p.get "thread_id") :=
  ⟨rfl, rfl, rfl, rfl, rfl, rfl, rfl, rfl, rfl, rfl, rfl, rfl, rfl⟩

/-- C6: an uploadFile operation whose blob fetch succeeds issues a multipart
request to /upload-file containing exactly the file entry (with the caller's
file name) and the user-token field, and a 2xx backend reply propagates the
returned body — its file path included — as the success envelope's data. -/
theorem C6_upload (p : JVal) (blob : Nat) (status : Nat) (data : JVal)
    (h2xx : statusOk status = true) :
    (handleFileUpload p (.ok blob) (.reply status (.ok data))).request =
      some { url := API_BASE_URL ++ "/upload-file", method := "POST", contentType := none
             body := some (.formOf [.fileEntry "file" blob (p.get "fileName"),
                                    .fieldEntry "user_token" (p.get "user_token")]) } ∧
    (handleFileUpload p (.ok blob) (.reply status (.ok data))).response =
      { success := true, data := some data, error := none } ∧
    ((handleFileUpload p (.ok blob) (.reply status (.ok data))).response.data.bind
      (fun d => d.get "file_path")) = data.get "file_path" := by
  refine ⟨rfl, ?_, ?_⟩ <;> simp [handleFileUpload, jsonExchange, h2xx]

/-- C6 witness: a concrete upload whose backend reply carries a file path. -/
theorem C6_upload_witness :
    (handleFileUpload
        (.obj (.fcons "fileData" (.str "u") (.fcons "fileName" (.str "f.txt")
          (.fcons "user_token" (.str "tok") .fnil))))
        (.ok 7)
        (.reply 200 (.ok (.obj (.fcons "file_path" (.str "files/f.txt") .fnil))))).response =
      { success := true, data := some (.obj (.fcons "file_path" (.str "files/f.txt") .fnil))
        error := none } :=
  (C6_upload
    (.obj (.fcons "fileData" (.str "u") (.fcons "fileName" (.str "f.txt")
      (.fcons "user_token" (.str "tok") .fnil))))
    7 200 (.obj (.fcons "file_path" (.str "files/f.txt") .fnil)) (by decide)).2.1

/-- C7: two operations that both default their identifier share the single
'default' registry slot — the interleaving start A, start B, finish A leaves
the still-running B with no registered handle, and a subsequent abort under
the default identifier is a no-op (nothing signalled, registry unchanged). -/
theorem C7_default_race (cA cB : Ctrl) (env : Env) :
    runEvs ⟨[], []⟩ [.start (.str "default") cA, .start (.str "default") cB,
      .finish (.str "default")] = ⟨[], []⟩ ∧
    getKey (.str "default")
      (runEvs ⟨[], []⟩ [.start (.str "default") cA, .start (.str "default") cB,
        .finish (.str "default")]).reg = none ∧
    requestIdOf (.obj .fnil) = .str "default" ∧
    handleMessage ⟨"abortRequest", .obj .fnil⟩
      (runEvs ⟨[], []⟩ [.start (.str "default") cA, .start (.str "default") cB,
        .finish (.str "default")]).reg env =
      { requests := [], responses := [], reg := [], signalled := [] } :=
  ⟨rfl, rfl, rfl, rfl⟩

/-- C8: every operation other than abort is answered exactly once, and the
answer respects the uniform envelope: a success carries data and no error, a
failure carries an error and no data; the abort message itself is answered
never. -/
theorem C8_envelope (msg : Message) (reg : Reg) (env : Env)
    (hop : msg.type ∈ ["sendChatMessage", "summarizeDocument", "uploadFile",
      "getChatHistory", "createNewChat", "autofillAppeal"]) :
    (handleMessage msg reg env).responses.length = 1 ∧
    (∀ r ∈ (handleMessage msg reg env).responses, envelopeOk r) ∧
    (∀ (q : JVal) (reg2 : Reg) (env2 : Env),
      (handleMessage ⟨"abortRequest", q⟩ reg2 env2).responses = []) := by
  have habort : ∀ (q : JVal) (reg2 : Reg) (env2 : Env),
      (handleMessage ⟨"abortRequest", q⟩ reg2 env2).responses = [] := by
    intro q reg2 env2
    rw [handleMessage_abort]
    cases h : getKey (requestIdOf q) reg2 <;> simp
  obtain ⟨t, p⟩ := msg
  simp only [List.mem_cons, List.not_mem_nil, or_false] at hop
  rcases hop with rfl | rfl | rfl | rfl | rfl | rfl
  · rw [handleMessage_chat]
    refine ⟨rfl, ?_, habort⟩
    intro r hr
    rcases List.mem_singleton.mp hr with rfl
    exact envelopeOk_performFetch _ _ _ _ _
  · rw [handleMessage_summarize]
    refine ⟨rfl, ?_, habort⟩
    intro r hr
    rcases List.mem_singleton.mp hr with rfl
    exact envelopeOk_performFetch _ _ _ _ _
  · rw [handleMessage_upload]
    refine ⟨rfl, ?_, habort⟩
    intro r hr
    rcases List.mem_singleton.mp hr with rfl
    exact envelopeOk_upload _ _ _
  · rw [handleMessage_history]
    refine ⟨rfl, ?_, habort⟩
    intro r hr
    rcases List.mem_singleton.mp hr with rfl
    exact envelopeOk_jsonExchange _ _
  · rw [handleMessage_create]
    refine ⟨rfl, ?_, habort⟩
    intro r hr
    rcases List.mem_singleton.mp hr with rfl
    exact envelopeOk_performFetch _ _ _ _ _
  · rw [handleMessage_autofill]
    refine ⟨rfl, ?_, habort⟩
    intro r hr
    rcases List.mem_singleton.mp hr with rfl
    exact envelopeOk_performFetch _ _ _ _ _

/-- C8 witness: a concrete chat operation is answered exactly once. -/
theorem C8_envelope_witness :
    (handleMessage ⟨"sendChatMessage", .obj .fnil⟩ []
      ⟨0, .completed (.reply 200 (.ok .null)), .ok 0, .netError "", .netError ""⟩).responses.length
      = 1 :=
  (C8_envelope ⟨"sendChatMessage", .obj .fnil⟩ []
    ⟨0, .completed (.reply 200 (.ok .null)), .ok 0, .netError "", .netError ""⟩
    (by decide)).1

/-- C9: the example scenario — a sendChatMessage with payload
message "hello", requestId "r1" issues POST http://localhost:8000/chat with
that payload as JSON body, and a 2xx backend reply with body message "hi"
reaches the caller as success with that body as data (the registry entry
under "r1" being created and removed along the way). -/
theorem C9_chat_example (reg : Reg) (env : Env) :
    handleMessage ⟨"sendChatMessage",
        .obj (.fcons "message" (.str "hello") (.fcons "requestId" (.str "r1") .fnil))⟩ reg
      { env with outcome := .completed (.reply 200 (.ok (.obj (.fcons "message" (.str "hi") .fnil)))) } =
      { requests := [{ url := "http://localhost:8000/chat", method := "POST"
                       contentType := some "application/json"
                       body := some (.jsonOf (.obj (.fcons "message" (.str "hello")
                         (.fcons "requestId" (.str "r1") .fnil)))) }]
        responses := [{ success := true
                        data := some (.obj (.fcons "message" (.str "hi") .fnil))
                        error := none }]
        reg := delKey (.str "r1") (setKey (.str "r1") env.ctrl reg)
        signalled := [] } := rfl

/-- C10: createNewChat and autofillAppeal forward rewritten payloads that
omit any caller-supplied requestId, so both register under the constant
'default' key, and an abort carrying any non-default identifier leaves their
in-flight entry untouched and signals nothing. -/
theorem C10_default_registration (p : JVal) (c : Ctrl) (o : FetchOutcome) (reg : Reg) :
    (simplifiedPayloadOf p).get "requestId" = none ∧
    (requestPayloadOf p).get "requestId" = none ∧
    (handleCreateNewChat p c o reg).rid = .str "default" ∧
    (handleAutofillAppeal p c o reg).rid = .str "default" ∧
    (handleCreateNewChat p c o reg).regDuring = setKey (.str "default") c reg ∧
    (handleAutofillAppeal p c o reg).regDuring = setKey (.str "default") c reg ∧
    (∀ (q : JVal) (env : Env), requestIdOf q ≠ .str "default" →
      handleMessage ⟨"abortRequest", q⟩ [(.str "default", c)] env =
        { requests := [], responses := [], reg := [(.str "default", c)]
          signalled := [] }) := by
  have h1 : (simplifiedPayloadOf p).get "requestId" = none :=
    get_objOf_of_notMem _ _
      (by intro kv hm; rcases List.mem_singleton.mp hm with rfl; simp)
  have h2 : (requestPayloadOf p).get "requestId" = none :=
    get_objOf_of_notMem _ _
      (by intro kv hm; simp at hm; rcases hm with rfl | rfl | rfl | rfl <;> simp)
  have hk1 : requestIdOf (simplifiedPayloadOf p) = .str "default" := by
    simp [requestIdOf, h1, jsOr]
  have hk2 : requestIdOf (requestPayloadOf p) = .str "default" := by
    simp [requestIdOf, h2, jsOr]
  refine ⟨h1, h2, hk1, hk2, ?_, ?_, ?_⟩
  · show setKey (requestIdOf (simplifiedPayloadOf p)) c reg = setKey (.str "default") c reg
    rw [hk1]
  · show setKey (requestIdOf (requestPayloadOf p)) c reg = setKey (.str "default") c reg
    rw [hk2]
  · intro q env hne
    have hmiss : getKey (requestIdOf q) [(.str "default", c)] = none := by
      simp [getKey, hne]
    rw [handleMessage_abort, hmiss]

/-- C10 witness: aborting with identifier "r1" while createNewChat's
'default' entry is in flight is a no-op. -/
theorem C10_default_registration_witness :
    handleMessage ⟨"abortRequest", .obj (.fcons "requestId" (.str "r1") .fnil)⟩
      [(.str "default", 0)] ⟨0, .aborted, .ok 0, .netError "", .netError ""⟩ =
      { requests := [], responses := [], reg := [(.str "default", 0)]
        signalled := [] } :=
  (C10_default_registration (.obj .fnil) 0 .aborted []).2.2.2.2.2.2
    (.obj (.fcons "requestId" (.str "r1") .fnil))
    ⟨0, .aborted, .ok 0, .netError "", .netError ""⟩ (by decide)

end EdmsRelay
